import Mathlib

/-!
A shallow embedding of the booking backend of MattDoyleBBall-Website
(`src/server.js`, route `POST /api/book`, and the serverless variant in
`src/unnamed/part_000`, `handler`), together with proofs about it.

Modelling conventions:
* ISO-8601 timestamp strings are identified with their epoch-millisecond
  instants (an `Int`): `Date.prototype.toISOString` is injective on valid
  dates, so `toIsoOrNull` is modelled as returning the instant directly.
* `new Date(string)` (best-effort engine parsing) and `Number(string)`
  coercion are runtime facilities of the JavaScript engine, not code of
  this repository; they are oracle parameters (`JsRuntime`).  `none`
  stands for `NaN` / an invalid date.  `Number` results are restricted to
  integral values (the repository's duration configuration is a whole
  number of minutes); fractional values behave analogously.
* The host clock is assumed to run at a fixed UTC offset, under which
  `d.setMinutes(d.getMinutes() + m)` advances the instant by exactly
  `m * 60000` milliseconds.
* An ECMAScript time value is clipped to `|t| <= 8.64e15` ms; outside that
  range the `Date` is invalid and `toISOString()` throws, which the
  handler's enclosing `catch` turns into the generic 500 response.
* Payload fields are `Option String`; `none` stands for an absent (or
  non-string, where only `typeof` guards consume the field) value.
* The Google Calendar client is an oracle (`CalendarApi`) whose calls
  return `Except Unit _`; `.error ()` stands for a thrown error.  The
  handler's result is paired with the ordered trace of calendar calls it
  performed.
-/

deriving instance DecidableEq for Except

/-- The character class `\s` of JavaScript regular expressions (also the
set trimmed by `String.prototype.trim`): whitespace and line terminators. -/
def jsWhitespace (c : Char) : Bool :=
  c = ' ' || c = '\t' || c = '\n' || c = '\r' || c = '\x0b' || c = '\x0c' ||
  c = ' ' || c = ' ' || (' ' ≤ c && c ≤ ' ') ||
  c = ' ' || c = ' ' || c = ' ' || c = ' ' ||
  c = '　' || c = '﻿'

/-- Strip leading and trailing `\s` characters from a character list. -/
def jsTrimList (l : List Char) : List Char :=
  ((l.dropWhile jsWhitespace).reverse.dropWhile jsWhitespace).reverse

/-- `s.trim()` of JavaScript: strip leading and trailing `\s` characters. -/
def jsTrim (s : String) : String :=
  String.mk (jsTrimList s.toList)

/-- `mustString(s)` (`src/server.js` line 70, `part_000` line 6):
`typeof s === "string" && s.trim().length > 0`.  A non-string or absent
value is `none`. -/
def mustString (o : Option String) : Bool :=
  match o with
  | some s => !(jsTrimList s.toList).isEmpty
  | none => false

/-- A character admitted by the class `[^\s@]` of the email regex. -/
def emailAtomChar (c : Char) : Bool :=
  !jsWhitespace c && c ≠ '@'

/-- Split a character list on a separator character, as
`String.prototype.split` does: `n` separators yield `n + 1` (possibly
empty) parts. -/
def splitChar (sep : Char) : List Char → List (List Char)
  | [] => [[]]
  | c :: cs =>
    match splitChar sep cs with
    | [] => [[]]
    | p :: ps => if c = sep then [] :: p :: ps else (c :: p) :: ps

/-- `isEmail(s)` (`src/server.js` line 66, `part_000` line 3): the regex
`/^[^\s@]+@[^\s@]+\.[^\s@]+$/`.  The string must consist of a nonempty
`@`-free whitespace-free local part, one `@` (splitting on `@` yields
exactly two parts), and a domain that is whitespace-free, `@`-free and
contains a `.` that is neither its first nor its last character
(`[^\s@]+` may itself contain dots, so any interior dot qualifies). -/
def isEmailStr (s : String) : Bool :=
  match splitChar '@' s.toList with
  | [lp, dom] =>
    !lp.isEmpty && lp.all emailAtomChar &&
    dom.all emailAtomChar &&
    ((dom.drop 1).dropLast.contains '.')
  | _ => false

/-- `isEmail` on a possibly-absent field (`typeof` guard). -/
def isEmail (o : Option String) : Bool :=
  match o with
  | some s => isEmailStr s
  | none => false

/-- The largest ECMAScript time value, in milliseconds: 8.64e15.
A `Date` whose time value exceeds this in absolute value is invalid. -/
def maxTimeValue : Nat := 8640000000000000

/-- The JavaScript-engine facilities the handler relies on. -/
structure JsRuntime where
  /-- `new Date(s).getTime()` for a string `s`; `none` when the result is
  `NaN` (unparseable). -/
  parseDate : String → Option Int
  /-- `Number(s)` coercion; `none` when the result is `NaN`. -/
  toNumber : String → Option Int

/-- `toIsoOrNull(s)` (`src/server.js` lines 74-82, `part_000` lines 9-17):
parse the value as a date, `null` on `NaN`, otherwise the canonical ISO
string — identified here with the instant itself.  An absent field is
`new Date(undefined)`, which is invalid. -/
def toIsoOrNull (rt : JsRuntime) (o : Option String) : Option Int :=
  o.bind rt.parseDate

/-- The `slot` object of the request payload. -/
structure Slot where
  title : Option String
  startIso : Option String
  endIso : Option String
  availabilityEventId : Option String
deriving DecidableEq

/-- The `customer` object of the request payload. -/
structure Customer where
  name : Option String
  phone : Option String
  email : Option String
  notes : Option String
deriving DecidableEq

/-- The JSON request body. -/
structure BookingBody where
  slot : Option Slot
  customer : Option Customer
deriving DecidableEq

/-- `body.slot || {}` after `req.body || {}`. -/
def theSlot (body? : Option BookingBody) : Slot :=
  (body?.getD ⟨none, none⟩).slot.getD ⟨none, none, none, none⟩

/-- `body.customer || {}` after `req.body || {}`. -/
def theCustomer (body? : Option BookingBody) : Customer :=
  (body?.getD ⟨none, none⟩).customer.getD ⟨none, none, none, none⟩

/-- The configuration values the booking flow reads
(`GOOGLE_CALENDAR_ID`, `TIMEZONE`, `BOOKING_DURATION_MINUTES`,
`DELETE_AVAILABILITY`), after their destructuring defaults `"primary"`,
`"America/New_York"`, `"60"`, `"false"` have been applied. -/
structure EnvConfig where
  calendarId : String
  timezone : String
  bookingDurationMinutes : String
  deleteAvailability : String
deriving DecidableEq

/-- Arguments of `calendar.freebusy.query` (`requestBody`): `timeMin`,
`timeMax` (ISO strings, identified with instants), `timeZone`, `items`
(calendar ids). -/
structure FreeBusyArgs where
  timeMin : Int
  timeMax : Int
  timeZone : String
  items : List String
deriving DecidableEq

/-- A `{ dateTime, timeZone }` event boundary. -/
structure EventTime where
  dateTime : Int
  timeZone : String
deriving DecidableEq

/-- Arguments of `calendar.events.insert`: calendar id plus the
`requestBody` fields; `attendees` is the list of attendee email addresses
and `sendUpdates` the notification mode. -/
structure InsertArgs where
  calendarId : String
  summary : String
  description : String
  start : EventTime
  timeEnd : EventTime
  attendees : List String
  sendUpdates : String
deriving DecidableEq

/-- Arguments of `calendar.events.delete`. -/
structure DeleteArgs where
  calendarId : String
  eventId : String
  sendUpdates : String
deriving DecidableEq

/-- One busy interval of a free/busy response (the handler never inspects
its fields, only the length of the list). -/
structure BusyInterval where
  busyStart : Int
  busyEnd : Int
deriving DecidableEq

/-- The `data` object of a successful insert response: `id` and
`htmlLink`, either of which the collaborator may omit. -/
structure InsertData where
  id : Option String
  htmlLink : Option String
deriving DecidableEq

/-- A successful insert response; `data` itself may be missing
(`created?.data`). -/
structure InsertResp where
  data : Option InsertData
deriving DecidableEq

/-- The external calendar collaborator, as an oracle.  `.error ()` stands
for a thrown error.  The free/busy result is the value of
`fb?.data?.calendars?.[GOOGLE_CALENDAR_ID]?.busy`: `none` when that chain
is undefined, `some l` when a busy list is present. -/
structure CalendarApi where
  freebusyResult : FreeBusyArgs → Except Unit (Option (List BusyInterval))
  insertResult : InsertArgs → Except Unit InsertResp
  deleteResult : DeleteArgs → Except Unit Unit

/-- One outbound calendar call, as recorded in the handler trace. -/
inductive CalCall
  | freebusy (args : FreeBusyArgs)
  | insert (args : InsertArgs)
  | delete (args : DeleteArgs)
deriving DecidableEq

/-- A response body: an error object, the success object
`{ ok: true, eventId, htmlLink }`, or an empty body (`res.end()`). -/
inductive RespBody
  | err (msg : String)
  | success (eventId : Option String) (htmlLink : Option String)
  | empty
deriving DecidableEq

/-- An HTTP response: status code and body. -/
structure HttpResp where
  status : Nat
  body : RespBody
deriving DecidableEq

/-- `x || null` applied to a string-or-absent value: the empty string is
falsy in JavaScript, so it also collapses to `null`. -/
def jsOrNull (o : Option String) : Option String :=
  match o with
  | some s => if s = "" then none else some s
  | none => none

/-- The event summary as composed by `src/server.js` line 151.  The
separator in that file is the byte-corrupted sequence U+00E2 U+20AC U+201D
(the UTF-8 bytes of an em dash misdecoded as Windows-1252), not an em
dash. -/
def summaryServer (title name : String) : String :=
  "BOOKED: " ++ title ++ " â€” " ++ name

/-- The event summary as composed by `src/unnamed/part_000` line 107, with
a genuine em dash U+2014. -/
def summaryVercel (title name : String) : String :=
  "BOOKED: " ++ title ++ " — " ++ name

/-- `descriptionLines` (`src/server.js` lines 136-146): fixed header,
blank line, the three customer lines; when `customer.notes` is a nonempty
trimmed string, additionally a blank line, a `Notes:` header, and the
trimmed notes. -/
def descriptionLines (c : Customer) : List String :=
  ["Booked via website", "",
   "Player: " ++ c.name.getD "", "Phone: " ++ c.phone.getD "",
   "Email: " ++ c.email.getD ""] ++
  (if mustString c.notes then ["", "Notes:", jsTrim (c.notes.getD "")] else [])

/-- `Number(BOOKING_DURATION_MINUTES) || 60` (`src/server.js` line 111):
`NaN` and `0` are falsy, any other number is kept. -/
def effectiveMinutes (rt : JsRuntime) (cfg : EnvConfig) : Int :=
  match rt.toNumber cfg.bookingDurationMinutes with
  | none => 60
  | some m => if m = 0 then 60 else m

/-- The fallback end computation (`src/server.js` lines 110-112): reparse
the start instant and advance it by the effective duration. -/
def fallbackEndMs (rt : JsRuntime) (cfg : EnvConfig) (startMs : Int) : Int :=
  startMs + effectiveMinutes rt cfg * 60000

/-- The normalized end instant (`src/server.js` lines 102, 109-114): a
parseable `slot.endIso` wins; otherwise the fallback end is used, and
`d.toISOString()` throws (`.error ()`) when the fallback instant falls
outside the representable time-value range. -/
def normalizedEnd (rt : JsRuntime) (cfg : EnvConfig) (slot : Slot)
    (startMs : Int) : Except Unit Int :=
  match toIsoOrNull rt slot.endIso with
  | some e => .ok e
  | none =>
    let e := fallbackEndMs rt cfg startMs
    if e.natAbs ≤ maxTimeValue then .ok e else .error ()

/-- The insert request the handler builds (`src/server.js` lines
148-159). -/
def insertArgsOf (summaryOf : String → String → String) (cfg : EnvConfig)
    (slot : Slot) (c : Customer) (startMs endMs : Int) : InsertArgs :=
  { calendarId := cfg.calendarId
    summary := summaryOf
      (if mustString slot.title then jsTrim (slot.title.getD "") else "Training Session")
      (c.name.getD "")
    description := String.intercalate "\n" (descriptionLines c)
    start := ⟨startMs, cfg.timezone⟩
    timeEnd := ⟨endMs, cfg.timezone⟩
    attendees := [c.email.getD ""]
    sendUpdates := "all" }

/-- `DELETE_AVAILABILITY === "true" && mustString(slot.availabilityEventId)`
(`src/server.js` line 163). -/
def wantsCleanup (cfg : EnvConfig) (slot : Slot) : Bool :=
  (cfg.deleteAvailability == "true") && mustString slot.availabilityEventId

/-- The customer-validation guard (`src/server.js` line 116):
`!mustString(customer.name) || !mustString(customer.phone) ||
!isEmail(customer.email)`. -/
def customerBad (c : Customer) : Bool :=
  !mustString c.name || !mustString c.phone || !isEmail c.email

/-- The free/busy request the handler builds (`src/server.js` lines
121-128). -/
def fbArgsOf (cfg : EnvConfig) (startMs endMs : Int) : FreeBusyArgs :=
  ⟨startMs, endMs, cfg.timezone, [cfg.calendarId]⟩

/-- The delete request the handler builds (`src/server.js` lines
165-169). -/
def deleteArgsOf (cfg : EnvConfig) (slot : Slot) : DeleteArgs :=
  ⟨cfg.calendarId, slot.availabilityEventId.getD "", "none"⟩

/-- The 200 success response (`src/server.js` lines 175-179):
`{ ok: true, eventId: created?.data?.id || null, htmlLink:
created?.data?.htmlLink || null }`. -/
def successResp (created : InsertResp) : HttpResp :=
  ⟨200, .success (jsOrNull (created.data.bind InsertData.id))
                 (jsOrNull (created.data.bind InsertData.htmlLink))⟩

/-- The body of the `POST /api/book` route of `src/server.js` (lines
94-183), parameterised by the summary composer so that the identical flow
of `src/unnamed/part_000` (lines 43-136, which differs only in its summary
separator) is the same definition.  Returns the response and the ordered
trace of calendar calls.  The result of the delete call is intentionally
not consulted: the source swallows it in an empty `catch`. -/
def bookFlow (summaryOf : String → String → String) (cfg : EnvConfig)
    (rt : JsRuntime) (api : CalendarApi) (body? : Option BookingBody) :
    HttpResp × List CalCall :=
  match toIsoOrNull rt (theSlot body?).startIso with
  | none => (⟨400, .err "Invalid start time."⟩, [])
  | some startMs =>
    match normalizedEnd rt cfg (theSlot body?) startMs with
    | .error _ => (⟨500, .err "Server error creating booking."⟩, [])
    | .ok endMs =>
      if customerBad (theCustomer body?) then
        (⟨400, .err "Please provide name, phone, and a valid email."⟩, [])
      else
        match api.freebusyResult (fbArgsOf cfg startMs endMs) with
        | .error _ =>
          (⟨500, .err "Server error creating booking."⟩,
           [.freebusy (fbArgsOf cfg startMs endMs)])
        | .ok busyOpt =>
          if (busyOpt.getD []).length > 0 then
            (⟨409, .err "That slot was just booked. Please pick another time."⟩,
             [.freebusy (fbArgsOf cfg startMs endMs)])
          else
            match api.insertResult
                (insertArgsOf summaryOf cfg (theSlot body?) (theCustomer body?) startMs endMs) with
            | .error _ =>
              (⟨500, .err "Server error creating booking."⟩,
               [.freebusy (fbArgsOf cfg startMs endMs),
                .insert (insertArgsOf summaryOf cfg (theSlot body?) (theCustomer body?) startMs endMs)])
            | .ok created =>
              (successResp created,
               [.freebusy (fbArgsOf cfg startMs endMs),
                .insert (insertArgsOf summaryOf cfg (theSlot body?) (theCustomer body?) startMs endMs)] ++
               (if wantsCleanup cfg (theSlot body?) then
                  [.delete (deleteArgsOf cfg (theSlot body?))]
                else []))

/-- `!x` on a string-valued environment variable: absent or empty is
falsy. -/
def jsFalsyStr (o : Option String) : Bool :=
  match o with
  | some s => s == ""
  | none => true

/-- The environment of the serverless handler: the four OAuth credentials
(no defaults) and the four defaulted configuration values. -/
structure VercelEnv where
  clientId : Option String
  clientSecret : Option String
  redirectUri : Option String
  refreshToken : Option String
  calendarId : String
  timezone : String
  bookingDurationMinutes : String
  deleteAvailability : String
deriving DecidableEq

/-- The serverless `handler` of `src/unnamed/part_000` (lines 19-137):
OPTIONS preflight, method gate, credential check, then the common booking
flow with the em-dash summary. -/
def vercelHandler (method : String) (env : VercelEnv) (rt : JsRuntime)
    (api : CalendarApi) (body? : Option BookingBody) : HttpResp × List CalCall :=
  if method == "OPTIONS" then (⟨204, .empty⟩, [])
  else if method != "POST" then (⟨405, .err "Method not allowed"⟩, [])
  else if jsFalsyStr env.clientId || jsFalsyStr env.clientSecret
      || jsFalsyStr env.redirectUri || jsFalsyStr env.refreshToken then
    (⟨500, .err "Server not configured (missing Google OAuth env vars)."⟩, [])
  else
    bookFlow summaryVercel
      ⟨env.calendarId, env.timezone, env.bookingDurationMinutes, env.deleteAvailability⟩
      rt api body?

/-- The summaries of the insert calls of a trace. -/
def insertSummaries (tr : List CalCall) : List String :=
  tr.filterMap (fun c => match c with | .insert a => some a.summary | _ => none)

/-- Exhaustive case analysis of the booking flow: every execution falls in
exactly one of the seven terminal branches of the source, and the trace of
calendar calls of each branch is as listed. -/
theorem bookFlow_shape (summaryOf : String → String → String) (cfg : EnvConfig)
    (rt : JsRuntime) (api : CalendarApi) (body? : Option BookingBody) :
    (toIsoOrNull rt (theSlot body?).startIso = none ∧
      bookFlow summaryOf cfg rt api body? = (⟨400, .err "Invalid start time."⟩, [])) ∨
    (∃ s, toIsoOrNull rt (theSlot body?).startIso = some s ∧
      ((normalizedEnd rt cfg (theSlot body?) s = .error () ∧
         bookFlow summaryOf cfg rt api body? =
           (⟨500, .err "Server error creating booking."⟩, [])) ∨
       (∃ e, normalizedEnd rt cfg (theSlot body?) s = .ok e ∧
         ((customerBad (theCustomer body?) = true ∧
            bookFlow summaryOf cfg rt api body? =
              (⟨400, .err "Please provide name, phone, and a valid email."⟩, [])) ∨
          (customerBad (theCustomer body?) = false ∧
            ((api.freebusyResult (fbArgsOf cfg s e) = .error () ∧
               bookFlow summaryOf cfg rt api body? =
                 (⟨500, .err "Server error creating booking."⟩,
                  [.freebusy (fbArgsOf cfg s e)])) ∨
             (∃ r, api.freebusyResult (fbArgsOf cfg s e) = .ok r ∧
               ((r.getD [] ≠ [] ∧
                  bookFlow summaryOf cfg rt api body? =
                    (⟨409, .err "That slot was just booked. Please pick another time."⟩,
                     [.freebusy (fbArgsOf cfg s e)])) ∨
                (r.getD [] = [] ∧
                  ((api.insertResult (insertArgsOf summaryOf cfg (theSlot body?)
                      (theCustomer body?) s e) = .error () ∧
                     bookFlow summaryOf cfg rt api body? =
                       (⟨500, .err "Server error creating booking."⟩,
                        [.freebusy (fbArgsOf cfg s e),
                         .insert (insertArgsOf summaryOf cfg (theSlot body?)
                           (theCustomer body?) s e)])) ∨
                   (∃ cr, api.insertResult (insertArgsOf summaryOf cfg (theSlot body?)
                      (theCustomer body?) s e) = .ok cr ∧
                     bookFlow summaryOf cfg rt api body? =
                       (successResp cr,
                        [.freebusy (fbArgsOf cfg s e),
                         .insert (insertArgsOf summaryOf cfg (theSlot body?)
                           (theCustomer body?) s e)] ++
                        (if wantsCleanup cfg (theSlot body?) then
                           [.delete (deleteArgsOf cfg (theSlot body?))]
                         else []))))))))))))) := by
  unfold bookFlow
  split
  case h_1 heq => exact Or.inl ⟨heq, rfl⟩
  case h_2 s heq =>
    right
    refine ⟨s, heq, ?_⟩
    split
    case h_1 u he => cases u; exact Or.inl ⟨he, rfl⟩
    case h_2 e he =>
      right
      refine ⟨e, he, ?_⟩
      split
      case isTrue hc => exact Or.inl ⟨hc, rfl⟩
      case isFalse hc =>
        right
        refine ⟨by simpa using hc, ?_⟩
        split
        case h_1 u hf => cases u; exact Or.inl ⟨hf, rfl⟩
        case h_2 r hf =>
          right
          refine ⟨r, hf, ?_⟩
          split
          case isTrue hb =>
            exact Or.inl ⟨List.length_pos.mp hb, rfl⟩
          case isFalse hb =>
            right
            refine ⟨List.eq_nil_of_length_eq_zero (Nat.eq_zero_of_not_pos hb), ?_⟩
            split
            case h_1 u hi => cases u; exact Or.inl ⟨hi, rfl⟩
            case h_2 cr hi => exact Or.inr ⟨cr, hi, rfl⟩

/-! ## Witness fixtures: concrete oracles and payloads -/

/-- A runtime whose date parser recognises one ISO timestamp
(`2025-03-01T10:00:00.000Z`, epoch `1740823200000` ms) and whose number
coercion recognises the decimal strings `"60"`, `"90"` and `"0"`. -/
def rtW : JsRuntime :=
  ⟨fun s => if s = "2025-03-01T10:00:00.000Z" then some 1740823200000 else none,
   fun s =>
     if s = "60" then some 60 else if s = "90" then some 90 else
     if s = "0" then some 0 else none⟩

/-- The default configuration values. -/
def cfgW : EnvConfig := ⟨"primary", "America/New_York", "60", "false"⟩

/-- A collaborator that reports a free interval and inserts successfully. -/
def apiFree : CalendarApi :=
  ⟨fun _ => .ok (some []),
   fun _ => .ok ⟨some ⟨some "evt123", some "https://link"⟩⟩,
   fun _ => .ok ()⟩

/-- A fully valid booking payload. -/
def bodyW : Option BookingBody :=
  some ⟨some ⟨none, some "2025-03-01T10:00:00.000Z", none, none⟩,
        some ⟨some "Jane", some "555-1234", some "jane@example.com", none⟩⟩

/-- A payload with an unparseable start time. -/
def bodyBadStart : Option BookingBody :=
  some ⟨some ⟨none, some "not-a-date", none, none⟩,
        some ⟨some "Jane", some "555-1234", some "jane@example.com", none⟩⟩

/-- A fully configured serverless environment. -/
def envW : VercelEnv :=
  ⟨some "id", some "secret", some "uri", some "token",
   "primary", "America/New_York", "60", "false"⟩

/-! ## Claims -/

/-- C2: for every payload whose `slot.startIso` is absent or does not
parse to a valid instant (`Date` parse yields `NaN`), the booking flow —
shared by the `POST /api/book` route of `src/server.js` and the POST
branch of `src/unnamed/part_000` — responds 400 with body
`{"error": "Invalid start time."}` and makes zero calendar calls. -/
theorem invalid_start_rejected (summaryOf : String → String → String)
    (cfg : EnvConfig) (rt : JsRuntime) (api : CalendarApi)
    (body? : Option BookingBody)
    (h : toIsoOrNull rt (theSlot body?).startIso = none) :
    bookFlow summaryOf cfg rt api body? = (⟨400, .err "Invalid start time."⟩, []) := by
  unfold bookFlow
  rw [h]

/-- Witness for C2 at a concrete unparseable start time. -/
theorem invalid_start_rejected_witness :
    toIsoOrNull rtW (theSlot bodyBadStart).startIso = none ∧
    bookFlow summaryServer cfgW rtW apiFree bodyBadStart =
      (⟨400, .err "Invalid start time."⟩, []) :=
  ⟨by decide, invalid_start_rejected summaryServer cfgW rtW apiFree bodyBadStart (by decide)⟩

/-- C9: in the fallback end-time computation
`Number(BOOKING_DURATION_MINUTES) || 60`, a configured duration string
that is non-numeric (`Number` yields `NaN`) or coerces to `0` is replaced
by 60 minutes; a configuration coercing to a nonzero number is honoured
as-is. -/
theorem duration_fallback_semantics (rt : JsRuntime) (cfg : EnvConfig) (startMs : Int) :
    ((rt.toNumber cfg.bookingDurationMinutes = none ∨
      rt.toNumber cfg.bookingDurationMinutes = some 0) →
      fallbackEndMs rt cfg startMs = startMs + 60 * 60000) ∧
    (∀ m : Int, rt.toNumber cfg.bookingDurationMinutes = some m → m ≠ 0 →
      fallbackEndMs rt cfg startMs = startMs + m * 60000) := by
  constructor
  · rintro (h | h) <;> simp [fallbackEndMs, effectiveMinutes, h]
  · intro m hm hnz
    simp [fallbackEndMs, effectiveMinutes, hm, hnz]

/-- Witness for C9: a non-numeric configuration falls back to 60 minutes,
and a configuration coercing to 90 is honoured. -/
theorem duration_fallback_semantics_witness :
    fallbackEndMs rtW ⟨"primary", "America/New_York", "nope", "false"⟩ 0 = 0 + 60 * 60000 ∧
    fallbackEndMs rtW ⟨"primary", "America/New_York", "90", "false"⟩ 1000 = 1000 + 90 * 60000 :=
  ⟨(duration_fallback_semantics rtW ⟨"primary", "America/New_York", "nope", "false"⟩ 0).1
     (Or.inl (by decide)),
   (duration_fallback_semantics rtW ⟨"primary", "America/New_York", "90", "false"⟩ 1000).2
     90 (by decide) (by decide)⟩

/-- C10: the serverless handler of `src/unnamed/part_000` answers an
OPTIONS request with 204 and an empty body, and any method other than
OPTIONS and POST with 405 `{"error": "Method not allowed"}`; in both
cases the payload is never inspected (the result does not depend on it)
and no calendar call is made. -/
theorem method_gate (method : String) (env : VercelEnv) (rt : JsRuntime)
    (api : CalendarApi) (body? : Option BookingBody) :
    (method = "OPTIONS" → vercelHandler method env rt api body? = (⟨204, .empty⟩, [])) ∧
    (method ≠ "OPTIONS" → method ≠ "POST" →
      vercelHandler method env rt api body? = (⟨405, .err "Method not allowed"⟩, [])) := by
  constructor
  · intro h
    subst h
    rfl
  · intro h1 h2
    simp [vercelHandler, h1, h2]

/-- Witness for C10 at the concrete methods `OPTIONS` and `GET`. -/
theorem method_gate_witness :
    vercelHandler "OPTIONS" envW rtW apiFree bodyW = (⟨204, .empty⟩, []) ∧
    vercelHandler "GET" envW rtW apiFree bodyW = (⟨405, .err "Method not allowed"⟩, []) :=
  ⟨(method_gate "OPTIONS" envW rtW apiFree bodyW).1 rfl,
   (method_gate "GET" envW rtW apiFree bodyW).2 (by decide) (by decide)⟩

/-- A collaborator that reports one busy interval for the slot. -/
def apiBusy : CalendarApi :=
  ⟨fun _ => .ok (some [⟨1740823200000, 1740826800000⟩]),
   fun _ => .ok ⟨some ⟨some "evt123", some "https://link"⟩⟩,
   fun _ => .ok ()⟩

/-- C1: whenever the free/busy query of a request returns a non-empty
busy-interval list, the handler responds 409 with
`{"error": "That slot was just booked. Please pick another time."}` and
makes no event-insert call; and an event-insert call happens only when the
immediately preceding free/busy call (the first element of the trace)
succeeded with a busy list that is empty (an absent busy field is coerced
to the empty list by `|| []`). -/
theorem busy_conflict_blocks_insert (summaryOf : String → String → String)
    (cfg : EnvConfig) (rt : JsRuntime) (api : CalendarApi) (body? : Option BookingBody) :
    (∀ a l, CalCall.freebusy a ∈ (bookFlow summaryOf cfg rt api body?).2 →
      api.freebusyResult a = .ok (some l) → l ≠ [] →
      (bookFlow summaryOf cfg rt api body?).1 =
        ⟨409, .err "That slot was just booked. Please pick another time."⟩ ∧
      ∀ b, CalCall.insert b ∉ (bookFlow summaryOf cfg rt api body?).2) ∧
    (∀ b, CalCall.insert b ∈ (bookFlow summaryOf cfg rt api body?).2 →
      ∃ a rest, (bookFlow summaryOf cfg rt api body?).2 =
          CalCall.freebusy a :: CalCall.insert b :: rest ∧
        ∃ r, api.freebusyResult a = .ok r ∧ r.getD [] = []) := by
  rcases bookFlow_shape summaryOf cfg rt api body? with
    ⟨hs, hout⟩ |
    ⟨s, hs, ⟨he, hout⟩ |
      ⟨e, he, ⟨hc, hout⟩ |
        ⟨hc, ⟨hf, hout⟩ |
          ⟨r, hf, ⟨hr, hout⟩ |
            ⟨hr, ⟨hi, hout⟩ | ⟨cr, hi, hout⟩⟩⟩⟩⟩⟩
  · rw [hout]; simp
  · rw [hout]; simp
  · rw [hout]; simp
  · rw [hout]
    constructor
    · intro a l ha h1 h2
      simp at ha
      subst ha
      rw [hf] at h1
      exact Except.noConfusion h1
    · intro b hb
      simp at hb
  · rw [hout]
    constructor
    · intro a l ha h1 h2
      simp at ha
      subst ha
      exact ⟨rfl, by simp⟩
    · intro b hb
      simp at hb
  · rw [hout]
    constructor
    · intro a l ha h1 h2
      simp at ha
      subst ha
      rw [hf] at h1
      injection h1 with h1
      subst h1
      simp at hr
      exact absurd hr h2
    · intro b hb
      simp at hb
      subst hb
      exact ⟨fbArgsOf cfg s e, [], rfl, r, hf, hr⟩
  · rw [hout]
    constructor
    · intro a l ha h1 h2
      have ha2 : a = fbArgsOf cfg s e := by
        rcases hw : wantsCleanup cfg (theSlot body?) <;> simp [hw] at ha <;> exact ha
      subst ha2
      rw [hf] at h1
      injection h1 with h1
      subst h1
      simp at hr
      exact absurd hr h2
    · intro b hb
      have hb2 : b = insertArgsOf summaryOf cfg (theSlot body?) (theCustomer body?) s e := by
        rcases hw : wantsCleanup cfg (theSlot body?) <;> simp [hw] at hb <;> exact hb
      subst hb2
      refine ⟨fbArgsOf cfg s e,
        (if wantsCleanup cfg (theSlot body?) = true then
          [CalCall.delete (deleteArgsOf cfg (theSlot body?))] else []), ?_, r, hf, hr⟩
      simp

/-- Witness for C1: with a collaborator reporting one busy interval, the
concrete valid request gets 409 and no insert call. -/
theorem busy_conflict_blocks_insert_witness :
    (bookFlow summaryServer cfgW rtW apiBusy bodyW).1 =
      ⟨409, .err "That slot was just booked. Please pick another time."⟩ ∧
    ∀ b, CalCall.insert b ∉ (bookFlow summaryServer cfgW rtW apiBusy bodyW).2 :=
  (busy_conflict_blocks_insert summaryServer cfgW rtW apiBusy bodyW).1
    (fbArgsOf cfgW 1740823200000 1740826800000)
    [⟨1740823200000, 1740826800000⟩] (by decide) rfl (by decide)

/-- Configuration with the delete-availability flag enabled. -/
def cfgDel : EnvConfig := ⟨"primary", "America/New_York", "60", "true"⟩

/-- A valid payload that carries an availability-placeholder event id. -/
def bodyDel : Option BookingBody :=
  some ⟨some ⟨none, some "2025-03-01T10:00:00.000Z", none, some "avail1"⟩,
        some ⟨some "Jane", some "555-1234", some "jane@example.com", none⟩⟩

/-- Like `apiFree` but the delete call throws. -/
def apiDelThrow : CalendarApi :=
  ⟨fun _ => .ok (some []),
   fun _ => .ok ⟨some ⟨some "evt123", some "https://link"⟩⟩,
   fun _ => .error ()⟩

/-- C5: the handler's outcome (response and call trace) never depends on
the outcome of the delete call — two collaborators agreeing on free/busy
and insert yield identical results, so a throwing delete leaves the 200
success payload unchanged; a delete call appears in the trace only when
the flag equals `"true"`, the placeholder id is a nonempty trimmed string,
and the insert call immediately before it succeeded; and when the flag is
not `"true"` (its default is `"false"`) no delete call is ever made. -/
theorem cleanup_best_effort (summaryOf : String → String → String)
    (cfg : EnvConfig) (rt : JsRuntime) (api api' : CalendarApi)
    (body? : Option BookingBody)
    (h1 : api.freebusyResult = api'.freebusyResult)
    (h2 : api.insertResult = api'.insertResult) :
    bookFlow summaryOf cfg rt api body? = bookFlow summaryOf cfg rt api' body? ∧
    (∀ d, CalCall.delete d ∈ (bookFlow summaryOf cfg rt api body?).2 →
      cfg.deleteAvailability = "true" ∧
      mustString (theSlot body?).availabilityEventId = true ∧
      d = deleteArgsOf cfg (theSlot body?) ∧
      ∃ a b cr, api.insertResult b = .ok cr ∧
        (bookFlow summaryOf cfg rt api body?).2 =
          [CalCall.freebusy a, CalCall.insert b, CalCall.delete d]) ∧
    (cfg.deleteAvailability ≠ "true" →
      ∀ d, CalCall.delete d ∉ (bookFlow summaryOf cfg rt api body?).2) := by
  refine ⟨?_, ?_, ?_⟩
  · unfold bookFlow
    rw [h1, h2]
  · intro d hd
    rcases bookFlow_shape summaryOf cfg rt api body? with
      ⟨hs, hout⟩ |
      ⟨s, hs, ⟨he, hout⟩ |
        ⟨e, he, ⟨hc, hout⟩ |
          ⟨hc, ⟨hf, hout⟩ |
            ⟨r, hf, ⟨hr, hout⟩ |
              ⟨hr, ⟨hi, hout⟩ | ⟨cr, hi, hout⟩⟩⟩⟩⟩⟩
    · rw [hout] at hd; simp at hd
    · rw [hout] at hd; simp at hd
    · rw [hout] at hd; simp at hd
    · rw [hout] at hd; simp at hd
    · rw [hout] at hd; simp at hd
    · rw [hout] at hd; simp at hd
    · rcases hw : wantsCleanup cfg (theSlot body?) with _ | _
      · rw [hout] at hd
        simp [hw] at hd
      · rw [hout] at hd
        simp [hw] at hd
        subst hd
        have hw2 : cfg.deleteAvailability = "true" ∧
            mustString (theSlot body?).availabilityEventId = true := by
          simpa [wantsCleanup] using hw
        refine ⟨hw2.1, hw2.2, rfl,
          fbArgsOf cfg s e,
          insertArgsOf summaryOf cfg (theSlot body?) (theCustomer body?) s e,
          cr, hi, ?_⟩
        rw [hout]
        simp [hw]
  · intro hne d hd
    have hw : wantsCleanup cfg (theSlot body?) = false := by
      unfold wantsCleanup
      rcases hb : (cfg.deleteAvailability == "true") with _ | _
      · simp
      · exact absurd (by simpa using hb) hne
    rcases bookFlow_shape summaryOf cfg rt api body? with
      ⟨hs, hout⟩ |
      ⟨s, hs, ⟨he, hout⟩ |
        ⟨e, he, ⟨hc, hout⟩ |
          ⟨hc, ⟨hf, hout⟩ |
            ⟨r, hf, ⟨hr, hout⟩ |
              ⟨hr, ⟨hi, hout⟩ | ⟨cr, hi, hout⟩⟩⟩⟩⟩⟩ <;>
      rw [hout] at hd <;> simp [hw] at hd

/-- Witness for C5: flag enabled, placeholder id present, delete call
throws — the result is the same as with a succeeding delete call, and the
trace shows the delete strictly after the successful insert. -/
theorem cleanup_best_effort_witness :
    bookFlow summaryServer cfgDel rtW apiDelThrow bodyDel =
      bookFlow summaryServer cfgDel rtW apiFree bodyDel ∧
    (cfgDel.deleteAvailability = "true" ∧
      mustString (theSlot bodyDel).availabilityEventId = true ∧
      deleteArgsOf cfgDel (theSlot bodyDel) = deleteArgsOf cfgDel (theSlot bodyDel) ∧
      ∃ a b cr, apiDelThrow.insertResult b = .ok cr ∧
        (bookFlow summaryServer cfgDel rtW apiDelThrow bodyDel).2 =
          [CalCall.freebusy a, CalCall.insert b,
           CalCall.delete (deleteArgsOf cfgDel (theSlot bodyDel))]) :=
  ⟨(cleanup_best_effort summaryServer cfgDel rtW apiDelThrow apiFree bodyDel rfl rfl).1,
   (cleanup_best_effort summaryServer cfgDel rtW apiDelThrow apiFree bodyDel rfl rfl).2.1
     (deleteArgsOf cfgDel (theSlot bodyDel)) (by decide)⟩

/-- The customer guard fails exactly when one of the three fields fails
its check. -/
theorem customerBad_iff (c : Customer) :
    customerBad c = true ↔
      (mustString c.name = false ∨ mustString c.phone = false ∨ isEmail c.email = false) := by
  rcases h1 : mustString c.name <;> rcases h2 : mustString c.phone <;>
    rcases h3 : isEmail c.email <;> simp [customerBad, h1, h2, h3]

/-- C6 (amended): after a successful insert the 200 response carries
`eventId`/`htmlLink` obtained from the collaborator's `id`/`htmlLink`
through `x || null`, which passes a nonempty string through unchanged and
substitutes `null` both when the field is absent and when it is the empty
string (JavaScript falsiness); the handler never throws on absence. -/
theorem insert_result_passthrough (summaryOf : String → String → String)
    (cfg : EnvConfig) (rt : JsRuntime) (api : CalendarApi) (body? : Option BookingBody) :
    (∀ b cr, CalCall.insert b ∈ (bookFlow summaryOf cfg rt api body?).2 →
      api.insertResult b = .ok cr →
      (bookFlow summaryOf cfg rt api body?).1 =
        ⟨200, .success (jsOrNull (cr.data.bind InsertData.id))
                       (jsOrNull (cr.data.bind InsertData.htmlLink))⟩) ∧
    (jsOrNull none = none ∧ jsOrNull (some "") = none ∧
      ∀ s : String, s ≠ "" → jsOrNull (some s) = some s) := by
  constructor
  · intro b cr hb hok
    rcases bookFlow_shape summaryOf cfg rt api body? with
      ⟨hs, hout⟩ |
      ⟨s, hs, ⟨he, hout⟩ |
        ⟨e, he, ⟨hc, hout⟩ |
          ⟨hc, ⟨hf, hout⟩ |
            ⟨r, hf, ⟨hr, hout⟩ |
              ⟨hr, ⟨hi, hout⟩ | ⟨cr2, hi, hout⟩⟩⟩⟩⟩⟩
    · rw [hout] at hb; simp at hb
    · rw [hout] at hb; simp at hb
    · rw [hout] at hb; simp at hb
    · rw [hout] at hb; simp at hb
    · rw [hout] at hb; simp at hb
    · rw [hout] at hb
      simp at hb
      subst hb
      rw [hi] at hok
      exact Except.noConfusion hok
    · rw [hout] at hb
      have hb2 : b = insertArgsOf summaryOf cfg (theSlot body?) (theCustomer body?) s e := by
        rcases hw : wantsCleanup cfg (theSlot body?) <;> simp [hw] at hb <;> exact hb
      subst hb2
      rw [hi] at hok
      injection hok with hok
      subst hok
      rw [hout]
      rfl
  · exact ⟨rfl, rfl, fun s hs => by simp [jsOrNull, hs]⟩

/-- Witness for C6 (amended): the collaborator's nonempty `id`/`htmlLink`
are passed through to the success payload unchanged. -/
theorem insert_result_passthrough_witness :
    CalCall.insert (insertArgsOf summaryServer cfgW (theSlot bodyW) (theCustomer bodyW)
        1740823200000 1740826800000) ∈ (bookFlow summaryServer cfgW rtW apiFree bodyW).2 ∧
    (bookFlow summaryServer cfgW rtW apiFree bodyW).1 =
      ⟨200, .success (some "evt123") (some "https://link")⟩ :=
  ⟨by decide,
   (insert_result_passthrough summaryServer cfgW rtW apiFree bodyW).1
     (insertArgsOf summaryServer cfgW (theSlot bodyW) (theCustomer bodyW)
       1740823200000 1740826800000)
     ⟨some ⟨some "evt123", some "https://link"⟩⟩ (by decide) rfl⟩

/-- A collaborator whose insert response carries an empty-string event
id. -/
def apiEmptyId : CalendarApi :=
  ⟨fun _ => .ok (some []),
   fun _ => .ok ⟨some ⟨some "", some "https://link"⟩⟩,
   fun _ => .ok ()⟩

/-- Counterexample to C6 as stated: the collaborator returns the event id
`""` — a present value, not an absent one — yet the response substitutes
`null` for it instead of passing it through, because `|| null` collapses
every falsy value. -/
theorem insert_result_passthrough_counterexample :
    apiEmptyId.insertResult (insertArgsOf summaryServer cfgW (theSlot bodyW)
        (theCustomer bodyW) 1740823200000 1740826800000) =
      .ok ⟨some ⟨some "", some "https://link"⟩⟩ ∧
    CalCall.insert (insertArgsOf summaryServer cfgW (theSlot bodyW) (theCustomer bodyW)
        1740823200000 1740826800000) ∈ (bookFlow summaryServer cfgW rtW apiEmptyId bodyW).2 ∧
    (bookFlow summaryServer cfgW rtW apiEmptyId bodyW).1 =
      ⟨200, .success none (some "https://link")⟩ ∧
    (none : Option String) ≠ some "" :=
  ⟨rfl, by decide, by decide, by decide⟩

/-- C8: every event the handler inserts carries a description that is the
newline-join of the fixed header line, a blank line, the `Player:`,
`Phone:` and `Email:` lines built from the raw customer fields, and —
exactly when `customer.notes` is nonempty after trimming — an additional
blank line, a `Notes:` header line, and the trimmed notes verbatim. -/
theorem description_composition (summaryOf : String → String → String)
    (cfg : EnvConfig) (rt : JsRuntime) (api : CalendarApi) (body? : Option BookingBody) :
    ∀ b, CalCall.insert b ∈ (bookFlow summaryOf cfg rt api body?).2 →
      b.description = String.intercalate "\n"
        (["Booked via website", "",
          "Player: " ++ (theCustomer body?).name.getD "",
          "Phone: " ++ (theCustomer body?).phone.getD "",
          "Email: " ++ (theCustomer body?).email.getD ""] ++
         (if mustString (theCustomer body?).notes = true then
            ["", "Notes:", jsTrim ((theCustomer body?).notes.getD "")]
          else [])) := by
  intro b hb
  rcases bookFlow_shape summaryOf cfg rt api body? with
    ⟨hs, hout⟩ |
    ⟨s, hs, ⟨he, hout⟩ |
      ⟨e, he, ⟨hc, hout⟩ |
        ⟨hc, ⟨hf, hout⟩ |
          ⟨r, hf, ⟨hr, hout⟩ |
            ⟨hr, ⟨hi, hout⟩ | ⟨cr, hi, hout⟩⟩⟩⟩⟩⟩
  · rw [hout] at hb; simp at hb
  · rw [hout] at hb; simp at hb
  · rw [hout] at hb; simp at hb
  · rw [hout] at hb; simp at hb
  · rw [hout] at hb; simp at hb
  · rw [hout] at hb
    simp at hb
    subst hb
    rfl
  · rw [hout] at hb
    have hb2 : b = insertArgsOf summaryOf cfg (theSlot body?) (theCustomer body?) s e := by
      rcases hw : wantsCleanup cfg (theSlot body?) <;> simp [hw] at hb <;> exact hb
    subst hb2
    rfl

/-- A valid payload with a title and notes that need trimming. -/
def bodyNotes : Option BookingBody :=
  some ⟨some ⟨some " Shooting drills ", some "2025-03-01T10:00:00.000Z", none, none⟩,
        some ⟨some "Jane", some "555-1234", some "jane@example.com", some " prefers mornings "⟩⟩

/-- Witness for C8: the inserted event's description at a concrete
payload with notes. -/
theorem description_composition_witness :
    CalCall.insert (insertArgsOf summaryServer cfgW (theSlot bodyNotes) (theCustomer bodyNotes)
        1740823200000 1740826800000) ∈ (bookFlow summaryServer cfgW rtW apiFree bodyNotes).2 ∧
    (insertArgsOf summaryServer cfgW (theSlot bodyNotes) (theCustomer bodyNotes)
        1740823200000 1740826800000).description =
      "Booked via website\n\nPlayer: Jane\nPhone: 555-1234\nEmail: jane@example.com\n\nNotes:\nprefers mornings" :=
  ⟨by decide,
   by
     have h := (description_composition summaryServer cfgW rtW apiFree bodyNotes)
       (insertArgsOf summaryServer cfgW (theSlot bodyNotes) (theCustomer bodyNotes)
         1740823200000 1740826800000) (by decide)
     rw [h]
     decide⟩

/-- A runtime recognising the largest representable ISO timestamp
`+275760-09-13T00:00:00.000Z` (epoch `8640000000000000` ms, the exact
ECMAScript time-value bound) and the decimal string `"60"`. -/
def rtMax : JsRuntime :=
  ⟨fun s => if s = "+275760-09-13T00:00:00.000Z" then some 8640000000000000 else none,
   fun s => if s = "60" then some 60 else none⟩

/-- A payload at the maximal start instant with an invalid email. -/
def bodyOverflowBadCustomer : Option BookingBody :=
  some ⟨some ⟨none, some "+275760-09-13T00:00:00.000Z", none, none⟩,
        some ⟨some "Jane", some "555-1234", some "not-an-email", none⟩⟩

/-- A fully valid payload at the maximal start instant, with no end. -/
def bodyOverflowGood : Option BookingBody :=
  some ⟨some ⟨none, some "+275760-09-13T00:00:00.000Z", none, none⟩,
        some ⟨some "Jane", some "555-1234", some "jane@example.com", none⟩⟩

/-- C3 (amended): for every payload with a valid start time whose end
normalization does not overflow the representable time range (because
`slot.endIso` parses, or the fallback `start + duration` stays within
±8.64e15 ms), the handler responds 400
`{"error": "Please provide name, phone, and a valid email."}` with no
calendar call if and only if the trimmed name is empty, the trimmed phone
is empty, or the email fails the `local@domain.tld` regex. -/
theorem customer_validation_amended (summaryOf : String → String → String)
    (cfg : EnvConfig) (rt : JsRuntime) (api : CalendarApi)
    (body? : Option BookingBody) (startMs : Int)
    (hs : toIsoOrNull rt (theSlot body?).startIso = some startMs)
    (hend : normalizedEnd rt cfg (theSlot body?) startMs ≠ .error ()) :
    (bookFlow summaryOf cfg rt api body? =
        (⟨400, .err "Please provide name, phone, and a valid email."⟩, [])) ↔
      (mustString (theCustomer body?).name = false ∨
       mustString (theCustomer body?).phone = false ∨
       isEmail (theCustomer body?).email = false) := by
  rcases bookFlow_shape summaryOf cfg rt api body? with
    ⟨hs2, hout⟩ | ⟨s, hs2, rest⟩
  · rw [hs] at hs2
    exact Option.noConfusion hs2
  · rw [hs] at hs2
    injection hs2 with hs2
    subst hs2
    rcases rest with ⟨he, hout⟩ | ⟨e, he, ⟨hc, hout⟩ | ⟨hc, sub⟩⟩
    · exact absurd he hend
    · rw [hout]
      exact iff_of_true rfl ((customerBad_iff (theCustomer body?)).mp hc)
    · have hcd : ¬(mustString (theCustomer body?).name = false ∨
          mustString (theCustomer body?).phone = false ∨
          isEmail (theCustomer body?).email = false) := by
        intro hor
        have h2 := (customerBad_iff (theCustomer body?)).mpr hor
        rw [hc] at h2
        exact Bool.noConfusion h2
      rcases sub with ⟨hf, hout⟩ |
        ⟨r, hf, ⟨hr, hout⟩ | ⟨hr, ⟨hi, hout⟩ | ⟨cr, hi, hout⟩⟩⟩
      · rw [hout]; exact iff_of_false (by simp) hcd
      · rw [hout]; exact iff_of_false (by simp) hcd
      · rw [hout]; exact iff_of_false (by simp) hcd
      · rw [hout]; exact iff_of_false (by simp) hcd

/-- A payload with a valid start but an email that fails the regex. -/
def bodyBadEmail : Option BookingBody :=
  some ⟨some ⟨none, some "2025-03-01T10:00:00.000Z", none, none⟩,
        some ⟨some "Jane", some "555-1234", some "not-an-email", none⟩⟩

/-- Witness for C3 (amended): `"not-an-email"` is rejected with the
customer-validation 400 and no calendar call. -/
theorem customer_validation_amended_witness :
    bookFlow summaryServer cfgW rtW apiFree bodyBadEmail =
      (⟨400, .err "Please provide name, phone, and a valid email."⟩, []) :=
  (customer_validation_amended summaryServer cfgW rtW apiFree bodyBadEmail
      1740823200000 (by decide) (by decide)).mpr
    (Or.inr (Or.inr (by decide)))

/-- Counterexample to C3 as stated: a payload with a valid start time
(the maximal representable instant), an absent end and an invalid email
is answered 500 — the end-fallback computation overflows and
`toISOString` throws before the customer check runs — not with the
customer-validation 400 the claim requires. -/
theorem customer_validation_counterexample :
    toIsoOrNull rtMax (theSlot bodyOverflowBadCustomer).startIso = some 8640000000000000 ∧
    isEmail (theCustomer bodyOverflowBadCustomer).email = false ∧
    bookFlow summaryServer cfgW rtMax apiFree bodyOverflowBadCustomer =
      (⟨500, .err "Server error creating booking."⟩, []) ∧
    bookFlow summaryServer cfgW rtMax apiFree bodyOverflowBadCustomer ≠
      (⟨400, .err "Please provide name, phone, and a valid email."⟩, []) := by
  refine ⟨by decide, by decide, by decide, by decide⟩

/-- C4 (amended): with a valid start and an absent or unparseable end,
the fallback end instant is exactly `start + effective duration` in
instant arithmetic, and whenever that instant stays within the
representable ECMAScript time range every free/busy and insert call uses
it as the interval end; when it falls outside the range, `toISOString`
throws and the request fails 500 with no calendar call. -/
theorem end_fallback_amended (summaryOf : String → String → String)
    (cfg : EnvConfig) (rt : JsRuntime) (api : CalendarApi)
    (body? : Option BookingBody) (startMs : Int)
    (hs : toIsoOrNull rt (theSlot body?).startIso = some startMs)
    (he : toIsoOrNull rt (theSlot body?).endIso = none) :
    fallbackEndMs rt cfg startMs = startMs + effectiveMinutes rt cfg * 60000 ∧
    ((fallbackEndMs rt cfg startMs).natAbs ≤ maxTimeValue →
      (∀ a, CalCall.freebusy a ∈ (bookFlow summaryOf cfg rt api body?).2 →
        a.timeMax = fallbackEndMs rt cfg startMs) ∧
      (∀ b, CalCall.insert b ∈ (bookFlow summaryOf cfg rt api body?).2 →
        b.timeEnd.dateTime = fallbackEndMs rt cfg startMs)) ∧
    (¬(fallbackEndMs rt cfg startMs).natAbs ≤ maxTimeValue →
      bookFlow summaryOf cfg rt api body? =
        (⟨500, .err "Server error creating booking."⟩, [])) := by
  refine ⟨rfl, ?_, ?_⟩
  · intro hrange
    have hne : normalizedEnd rt cfg (theSlot body?) startMs =
        .ok (fallbackEndMs rt cfg startMs) := by
      unfold normalizedEnd
      rw [he]
      simp [hrange]
    rcases bookFlow_shape summaryOf cfg rt api body? with
      ⟨hs2, hout⟩ | ⟨s, hs2, rest⟩
    · rw [hs] at hs2
      exact Option.noConfusion hs2
    · rw [hs] at hs2
      injection hs2 with hs2
      subst hs2
      rcases rest with ⟨he2, hout⟩ | ⟨e, he2, rest2⟩
      · rw [hne] at he2
        exact Except.noConfusion he2
      · rw [hne] at he2
        injection he2 with he2
        subst he2
        rcases rest2 with ⟨hc, hout⟩ |
          ⟨hc, ⟨hf, hout⟩ | ⟨r, hf, ⟨hr, hout⟩ | ⟨hr, ⟨hi, hout⟩ | ⟨cr, hi, hout⟩⟩⟩⟩
        · rw [hout]
          exact ⟨fun a ha => by simp at ha, fun b hb => by simp at hb⟩
        · rw [hout]
          refine ⟨fun a ha => ?_, fun b hb => by simp at hb⟩
          simp at ha
          subst ha
          rfl
        · rw [hout]
          refine ⟨fun a ha => ?_, fun b hb => by simp at hb⟩
          simp at ha
          subst ha
          rfl
        · rw [hout]
          refine ⟨fun a ha => ?_, fun b hb => ?_⟩
          · simp at ha
            subst ha
            rfl
          · simp at hb
            subst hb
            rfl
        · rw [hout]
          refine ⟨fun a ha => ?_, fun b hb => ?_⟩
          · have ha2 : a = fbArgsOf cfg startMs (fallbackEndMs rt cfg startMs) := by
              rcases hw : wantsCleanup cfg (theSlot body?) <;> simp [hw] at ha <;> exact ha
            subst ha2
            rfl
          · have hb2 : b = insertArgsOf summaryOf cfg (theSlot body?) (theCustomer body?)
                startMs (fallbackEndMs rt cfg startMs) := by
              rcases hw : wantsCleanup cfg (theSlot body?) <;> simp [hw] at hb <;> exact hb
            subst hb2
            rfl
  · intro hrange
    have hne : normalizedEnd rt cfg (theSlot body?) startMs = .error () := by
      unfold normalizedEnd
      rw [he]
      simp [hrange]
    rcases bookFlow_shape summaryOf cfg rt api body? with
      ⟨hs2, hout⟩ | ⟨s, hs2, rest⟩
    · rw [hs] at hs2
      exact Option.noConfusion hs2
    · rw [hs] at hs2
      injection hs2 with hs2
      subst hs2
      rcases rest with ⟨he2, hout⟩ | ⟨e, he2, rest2⟩
      · exact hout
      · rw [hne] at he2
        exact Except.noConfusion he2

/-- Witness for C4 (amended): at the concrete in-range request the
free/busy interval end is the fallback instant. -/
theorem end_fallback_amended_witness :
    (fbArgsOf cfgW 1740823200000 1740826800000).timeMax =
      fallbackEndMs rtW cfgW 1740823200000 :=
  ((end_fallback_amended summaryServer cfgW rtW apiFree bodyW 1740823200000
      (by decide) (by decide)).2.1 (by decide)).1
    (fbArgsOf cfgW 1740823200000 1740826800000) (by decide)

/-- Counterexample to C4 as stated: a fully valid payload whose start is
the maximal representable instant and whose end is absent is answered 500
with zero calendar calls — the fallback end `start + 60 min` exceeds the
time-value bound, `toISOString` throws, and the claim's promise that an
absent end never fails the request is violated. -/
theorem end_fallback_counterexample :
    toIsoOrNull rtMax (theSlot bodyOverflowGood).startIso = some 8640000000000000 ∧
    toIsoOrNull rtMax (theSlot bodyOverflowGood).endIso = none ∧
    mustString (theCustomer bodyOverflowGood).name = true ∧
    mustString (theCustomer bodyOverflowGood).phone = true ∧
    isEmail (theCustomer bodyOverflowGood).email = true ∧
    bookFlow summaryServer cfgW rtMax apiFree bodyOverflowGood =
      (⟨500, .err "Server error creating booking."⟩, []) := by
  refine ⟨by decide, by decide, by decide, by decide, by decide, by decide⟩

/-- C7: the summary of the event inserted by `src/server.js` joins the
(defaulted) title and customer name with the byte-corrupted separator
`" â€” "` (U+00E2 U+20AC U+201D — the UTF-8 bytes of an em dash
misdecoded as Windows-1252), while the identical line of
`src/unnamed/part_000` uses the genuine em dash `" — "` (U+2014) that
the claim states; the two strings differ. -/
theorem summary_separator_mojibake :
    insertSummaries (bookFlow summaryServer cfgW rtW apiFree bodyW).2 =
      ["BOOKED: Training Session â€” Jane"] ∧
    insertSummaries (bookFlow summaryVercel cfgW rtW apiFree bodyW).2 =
      ["BOOKED: Training Session — Jane"] ∧
    insertSummaries (bookFlow summaryVercel cfgW rtW apiFree bodyNotes).2 =
      ["BOOKED: Shooting drills — Jane"] ∧
    "BOOKED: Training Session â€” Jane" ≠ "BOOKED: Training Session — Jane" := by
  refine ⟨by decide, by decide, by decide, by decide⟩
